import Mathlib

/-!
Shallow embedding of `libcloud/dns/drivers/cloudflare.py` (CloudFlare DNS
driver): the Python value model used by the driver, the response classifier
(`CloudFlareDNSResponse.success` / `parse_error`), the authenticating
connection adapter (`CloudFlareDNSConnection.request`) and the driver
methods the claims refer to.  Python exceptions are modelled with `Except`;
`json.loads` (an external library) is a parameter `loads` of the functions
that call it; machine-level HTTP transport is a parameter
`net : OutgoingRequest → HttpResponse` standing for the provider answering
one request.
-/

namespace CloudFlare

/-- Python runtime values as far as this module manipulates them:
`None`, booleans, ints, strings, lists, dicts (string-keyed, which is all
the driver ever builds or reads), and opaque builtin function objects
(needed because `create_record` passes the builtin `id` as a record id). -/
inductive PyVal : Type where
  | none : PyVal
  | bool (b : Bool) : PyVal
  | int (n : Int) : PyVal
  | str (s : String) : PyVal
  | builtin (name : String) : PyVal
  | list (xs : List PyVal) : PyVal
  | dict (entries : List (String × PyVal)) : PyVal
deriving Repr

mutual

/-- Structural equality on `PyVal` (Python `==` restricted to the shapes the
driver compares). -/
def PyVal.beq : PyVal → PyVal → Bool
  | .none, .none => true
  | .bool a, .bool b => a == b
  | .int a, .int b => a == b
  | .str a, .str b => a == b
  | .builtin a, .builtin b => a == b
  | .list a, .list b => PyVal.beqList a b
  | .dict a, .dict b => PyVal.beqDict a b
  | _, _ => false

def PyVal.beqList : List PyVal → List PyVal → Bool
  | [], [] => true
  | a :: as, b :: bs => PyVal.beq a b && PyVal.beqList as bs
  | _, _ => false

def PyVal.beqDict : List (String × PyVal) → List (String × PyVal) → Bool
  | [], [] => true
  | (ka, va) :: as, (kb, vb) :: bs => ka == kb && PyVal.beq va vb && PyVal.beqDict as bs
  | _, _ => false

end

instance : BEq PyVal := ⟨PyVal.beq⟩

/-- Python exceptions raised (or propagated) by this module. -/
inductive PyError : Type where
  /-- Python `InvalidCredsError(msg)` from `libcloud.common.types`. -/
  | invalidCreds (msg : String) : PyError
  /-- Python `MalformedResponseError(msg, body=...)` from `libcloud.common.types`. -/
  | malformedResponse (msg : String) (body : String) : PyError
  /-- Error class `CloudFlareDNSError(code, err_code, err_msg)` defined by this module. -/
  | cloudFlareDNSError (code : Int) (err_code : PyVal) (err_msg : PyVal) : PyError
  /-- Python `KeyError` from a failed dict subscript. -/
  | keyError (key : String) : PyError
  /-- Python `TypeError` (e.g. `str + list`, `int(None)`, bad subscript). -/
  | typeError (msg : String) : PyError
  /-- Python `ValueError` (e.g. `int("x")` on a non-numeric string). -/
  | valueError (msg : String) : PyError
  /-- the exception raised by `json.loads` on a non-JSON body. -/
  | jsonDecodeError : PyError
  /-- a failed `assert` statement. -/
  | assertionError : PyError
deriving Repr, BEq

/-- Python dict subscript `d[k]` with a string key: `KeyError` when the key
is absent, `TypeError` when the value is not a dict. -/
def getItem : PyVal → String → Except PyError PyVal
  | .dict entries, k =>
    match entries.find? (fun p => p.1 = k) with
    | Option.some p => Except.ok p.2
    | Option.none => Except.error (PyError.keyError k)
  | _, _ => Except.error (PyError.typeError "value is not subscriptable by a string key")

/-- Python dict assignment `d[k] = v`: overwrite the (first, and in any dict
the only) entry for `k` in place if one exists, append at the end otherwise —
exactly the key-order behaviour of a Python dict. -/
def dictSet : List (String × PyVal) → String → PyVal → List (String × PyVal)
  | [], k, v => [(k, v)]
  | (k0, v0) :: rest, k, v =>
    if k0 = k then (k, v) :: rest else (k0, v0) :: dictSet rest k v

/-- Read-only key lookup on a parameter dict, for stating theorems. -/
def lookupKey : List (String × PyVal) → String → Option PyVal
  | [], _ => Option.none
  | (k0, v) :: rest, k => if k0 = k then Option.some v else lookupKey rest k

/-- Python `in` on a list (`level not in sec_lvls`). -/
def pyIn (v : PyVal) : PyVal → Bool
  | .list xs => xs.contains v
  | _ => false

/-- Python `+` on the value shapes this module can reach: string/int/list
concatenation or addition succeeds; mixed shapes (in particular
`str + list`, which `set_security_level` evaluates) raise `TypeError`. -/
def pyAdd : PyVal → PyVal → Except PyError PyVal
  | .str a, .str b => Except.ok (.str (a ++ b))
  | .int a, .int b => Except.ok (.int (a + b))
  | .list a, .list b => Except.ok (.list (a ++ b))
  | .str _, _ => Except.error (PyError.typeError "can only concatenate str (not other types) to str")
  | _, _ => Except.error (PyError.typeError "unsupported operand types for +")

/-- Python `int(x)`: ints pass through, bools map to 0/1, numeric strings
parse, `None` (and other shapes) raise `TypeError`, non-numeric strings
raise `ValueError`.  Used for `service_mode: int(extra)` and `v: int(mode)`. -/
def pyInt : PyVal → Except PyError Int
  | .int n => Except.ok n
  | .bool b => Except.ok (if b then 1 else 0)
  | .str s =>
    match s.toInt? with
    | Option.some n => Except.ok n
    | Option.none => Except.error (PyError.valueError ("invalid literal for int(): " ++ s))
  | .none => Except.error (PyError.typeError "int() argument must be a string or a number, not NoneType")
  | _ => Except.error (PyError.typeError "int() argument must be a string or a number")

/-- Python `type(x) == bool` (the guard of `set_development_mode`/`toggle_ipv6`). -/
def isBoolTyped : PyVal → Bool
  | .bool _ => true
  | _ => false

/-- A completed HTTP response as the classifier sees it: numeric status
(`int(self.status)` already applied), raw body text, and the base
response's status-reason text `self.error`. -/
structure HttpResponse : Type where
  status : Int
  body : String
  error : String
deriving Repr, BEq

/-- Source method `CloudFlareDNSResponse.success`:
`body = json.loads(self.body); if body['result'] == 'success': return self.status == httplib.OK`.
A parse failure propagates (nothing catches it here); when the `result`
field differs from `"success"` the Python function falls off the end and
returns `None`, not `False`. -/
def success (loads : String → Option PyVal) (r : HttpResponse) :
    Except PyError PyVal :=
  match loads r.body with
  | Option.none => Except.error PyError.jsonDecodeError
  | Option.some body =>
    match getItem body "result" with
    | Except.error e => Except.error e
    | Except.ok v =>
      if v == PyVal.str "success" then
        Except.ok (PyVal.bool (r.status == 200))
      else
        Except.ok PyVal.none

/-- Source method `CloudFlareDNSResponse.parse_error`: dispatch on the numeric status.
401 raises `InvalidCredsError` (status-text message when the body is empty,
otherwise the raw body); any status other than 503 parses the body —
`MalformedResponseError` on parse failure, otherwise
`CloudFlareDNSError(status, body['err_code'], body['msg'])`; only a 503
reaches the trailing `return self.body`. -/
def parse_error (loads : String → Option PyVal) (r : HttpResponse) :
    Except PyError String :=
  let status := r.status
  if status == 401 then
    if r.body = "" then
      Except.error (PyError.invalidCreds (toString r.status ++ ": " ++ r.error))
    else
      Except.error (PyError.invalidCreds r.body)
  else if status != 503 then
    match loads r.body with
    | Option.none =>
      Except.error (PyError.malformedResponse "Failed to parse Json" r.body)
    | Option.some body =>
      match getItem body "err_code" with
      | Except.error e => Except.error e
      | Except.ok ec =>
        match getItem body "msg" with
        | Except.error e => Except.error e
        | Except.ok em =>
          Except.error (PyError.cloudFlareDNSError status ec em)
  else
    Except.ok r.body

/-- Source constant `API_HOST = 'cloudflare.com'`. -/
def API_HOST : String := "cloudflare.com"

/-- Source constant `API_ACTION = '/api_json.html'`. -/
def API_ACTION : String := "/api_json.html"

/-- One request as handed to the generic transport by
`CloudFlareDNSConnection.request` (after auth injection and defaulting). -/
structure OutgoingRequest : Type where
  action : String
  params : List (String × PyVal)
  data : String
  headers : List (String × String)
  method : String
deriving Repr, BEq

/-- The driver instance: the immutable credential pair handed to the
connection (`user_id`, `key` of `ConnectionUserAndKey`). -/
structure Driver : Type where
  user_id : String
  key : String
deriving Repr, BEq

/-- Source method `CloudFlareDNSConnection.request(action, params=None, data='',
headers=None, method='POST')`: a falsy `headers` (absent or empty) is
replaced by the JSON content-type default, a falsy `params` by `{}`, then
`params['u'] = self.user_id` and `params['tkn'] = self.key` before
delegating to the generic transport. -/
def connRequest (user_id key : String) (action : String)
    (params : Option (List (String × PyVal))) (data : String)
    (headers : Option (List (String × String))) (method : String) :
    OutgoingRequest :=
  let headers :=
    match headers with
    | Option.none => [("Content-Type", "application/json; charset=UTF-8")]
    | Option.some hs =>
      if hs = [] then [("Content-Type", "application/json; charset=UTF-8")] else hs
  let params :=
    match params with
    | Option.none => []
    | Option.some ps => ps
  let params := dictSet params "u" (PyVal.str user_id)
  let params := dictSet params "tkn" (PyVal.str key)
  { action := action, params := params, data := data,
    headers := headers, method := method }

/-- Call form `connection.request(action, params=...)` with the remaining arguments
left at their defaults (`data=''`, `headers=None`, `method='POST'`), the
form every driver method uses. -/
def connRequestDefaults (user_id key : String) (action : String)
    (params : List (String × PyVal)) : OutgoingRequest :=
  connRequest user_id key action (Option.some params) "" Option.none "POST"

/-- Call form `self.connection.request(action=action, params=params)` as issued from a
driver method: the connection holds the driver's credential pair. -/
def driverRequest (d : Driver) (action : String)
    (params : List (String × PyVal)) : OutgoingRequest :=
  connRequestDefaults d.user_id d.key action params

/-- The generic DNS `Record` value constructed by `create_record`:
`Record(id=id, name=name, type=type, data=data, extra=extra, zone=zone,
driver=self)` (note the `id` argument is the Python builtin function `id`,
not a record identifier). -/
structure Record : Type where
  id : PyVal
  name : PyVal
  type : PyVal
  data : PyVal
  extra : PyVal
  zone : PyVal
  driver : Driver
deriving Repr, BEq

/-- Python `int(mode)` in the bodies of `set_development_mode`/`toggle_ipv6`,
where the guard has already established `type(mode) == bool`. -/
def boolToInt : PyVal → PyVal
  | .bool b => .int (if b then 1 else 0)
  | v => v

/-- Source method `CloudFlareDNSDriver.set_security_level`: validates
`level in ['high','med','low','eoff']` before any request; on an invalid
level it evaluates `'Level must be in ' + sec_lvls` (a `str + list`
concatenation) while building the `CloudFlareDNSError`, then issues one
`a=sec_lvl` request and returns `response.status == httplib.OK`.
The result pairs the list of requests issued with the outcome. -/
def set_security_level (d : Driver) (net : OutgoingRequest → HttpResponse)
    (zone_id level : PyVal) : List OutgoingRequest × Except PyError Bool :=
  let sec_lvls := PyVal.list [.str "high", .str "med", .str "low", .str "eoff"]
  if ¬ pyIn level sec_lvls then
    match pyAdd (PyVal.str "Level must be in ") sec_lvls with
    | Except.error e => ([], Except.error e)
    | Except.ok msg =>
      ([], Except.error (PyError.cloudFlareDNSError 400 (PyVal.str "E_INVLDINPUT") msg))
  else
    let params := [("a", PyVal.str "sec_lvl"), ("z", zone_id), ("v", level)]
    let req := driverRequest d API_ACTION params
    ([req], Except.ok ((net req).status == 200))

/-- Source method `CloudFlareDNSDriver.set_cache_level`: same shape as
`set_security_level` with `cache_lvls = ['agg','basic']` and `a=cache_lvl`;
the invalid-level branch likewise evaluates `'Level must be in ' + cache_lvls`. -/
def set_cache_level (d : Driver) (net : OutgoingRequest → HttpResponse)
    (zone_id level : PyVal) : List OutgoingRequest × Except PyError Bool :=
  let cache_lvls := PyVal.list [.str "agg", .str "basic"]
  if ¬ pyIn level cache_lvls then
    match pyAdd (PyVal.str "Level must be in ") cache_lvls with
    | Except.error e => ([], Except.error e)
    | Except.ok msg =>
      ([], Except.error (PyError.cloudFlareDNSError 400 (PyVal.str "E_INVLDINPUT") msg))
  else
    let params := [("a", PyVal.str "cache_lvl"), ("z", zone_id), ("v", level)]
    let req := driverRequest d API_ACTION params
    ([req], Except.ok ((net req).status == 200))

/-- Source method `CloudFlareDNSDriver.set_development_mode`: rejects a non-boolean
`mode` with `CloudFlareDNSError(400, 'E_INVLDINPUT', 'Mode must be boolean')`
before any request; otherwise issues one `a=devmode` request, asserts a 200
status, reads `json.loads(body)['response']['expires_on']` and returns
`datetime.datetime.fromtimestamp(expires_on).ctime()` — the external
`datetime` formatting is the parameter `ctime`. -/
def set_development_mode (d : Driver) (net : OutgoingRequest → HttpResponse)
    (loads : String → Option PyVal) (ctime : PyVal → Except PyError String)
    (zone_id mode : PyVal) : List OutgoingRequest × Except PyError String :=
  if ¬ isBoolTyped mode then
    ([], Except.error (PyError.cloudFlareDNSError 400 (PyVal.str "E_INVLDINPUT")
          (PyVal.str "Mode must be boolean")))
  else
    let params := [("a", PyVal.str "devmode"), ("z", zone_id), ("v", boolToInt mode)]
    let req := driverRequest d API_ACTION params
    let response := net req
    ([req],
      if response.status == 200 then
        match loads response.body with
        | Option.none => Except.error PyError.jsonDecodeError
        | Option.some body =>
          match getItem body "response" with
          | Except.error e => Except.error e
          | Except.ok resp =>
            match getItem resp "expires_on" with
            | Except.error e => Except.error e
            | Except.ok expires_on => ctime expires_on
      else
        Except.error PyError.assertionError)

/-- Source method `CloudFlareDNSDriver.toggle_ipv6`: rejects a non-boolean `mode` with
`CloudFlareDNSError(400, 'E_INVLDINPUT', 'Mode must be boolean')` before
any request; otherwise issues one `a=ipv46` request and returns
`response.status == httplib.OK`. -/
def toggle_ipv6 (d : Driver) (net : OutgoingRequest → HttpResponse)
    (zone_id mode : PyVal) : List OutgoingRequest × Except PyError Bool :=
  if ¬ isBoolTyped mode then
    ([], Except.error (PyError.cloudFlareDNSError 400 (PyVal.str "E_INVLDINPUT")
          (PyVal.str "Mode must be boolean")))
  else
    let params := [("a", PyVal.str "ipv46"), ("z", zone_id), ("v", boolToInt mode)]
    let req := driverRequest d API_ACTION params
    ([req], Except.ok ((net req).status == 200))

/-- Source method `CloudFlareDNSDriver.create_record`: builds
`{'a': 'rec_set', 'name': name, 'zone': zone, 'type': type,
'content': data, 'service_mode': int(extra)}` (the `int(extra)` coercion
runs while the dict literal is evaluated, before any request), issues one
request, asserts a 200 status and returns
`Record(id=id, name=name, type=type, data=data, extra=extra, zone=zone,
driver=self)`.  The signature's default is `extra=None`. -/
def create_record (d : Driver) (net : OutgoingRequest → HttpResponse)
    (name zone type data : PyVal) (extra : PyVal := PyVal.none) :
    List OutgoingRequest × Except PyError Record :=
  match pyInt extra with
  | Except.error e => ([], Except.error e)
  | Except.ok sm =>
    let params := [("a", PyVal.str "rec_set"), ("name", name), ("zone", zone),
                   ("type", type), ("content", data),
                   ("service_mode", PyVal.int sm)]
    let req := driverRequest d API_ACTION params
    let response := net req
    ([req],
      if response.status == 200 then
        Except.ok { id := PyVal.builtin "id", name := name, type := type,
                    data := data, extra := extra, zone := zone, driver := d }
      else
        Except.error PyError.assertionError)

/-- The body of `CloudFlareDNSDriver.update_record` as written:
`params = {'a': 'DIUP', 'hosts': record, 'ip': data}`, one request, return
`response.status == httplib.OK`.  NOTE: the Python definition
`def update_record(self, record, name=None, type=None, data, extra=None)`
is itself a `SyntaxError` (the non-default parameter `data` follows
default parameters), so the module as published cannot be imported and this
method can never actually be called; this definition embeds the body the
source writes for it, with all five parameters in scope. -/
def update_record_body (d : Driver) (net : OutgoingRequest → HttpResponse)
    (record name type data extra : PyVal) :
    List OutgoingRequest × Except PyError Bool :=
  let params := [("a", PyVal.str "DIUP"), ("hosts", record), ("ip", data)]
  let req := driverRequest d API_ACTION params
  ([req], Except.ok ((net req).status == 200))

/-- The body of `CloudFlareDNSDriver.zone_ips(self, zone_id, hours=24,
**kwargs)`: `params = {'a': 'zone_ips', 'zid': zone_id}`, then each of
`'hours'`, `'class'`, `'geo'` is copied into `params` only when it is a key
of `kwargs`; one request; returns
`json.loads(response.body)['response']['ips']`.  The named parameter
`hours` is never read by the body. -/
def zone_ips_body (d : Driver) (net : OutgoingRequest → HttpResponse)
    (loads : String → Option PyVal) (zone_id hours : PyVal)
    (kwargs : List (String × PyVal)) :
    List OutgoingRequest × Except PyError PyVal :=
  let params := [("a", PyVal.str "zone_ips"), ("zid", zone_id)]
  let params :=
    match lookupKey kwargs "hours" with
    | Option.some v => dictSet params "hours" v
    | Option.none => params
  let params :=
    match lookupKey kwargs "class" with
    | Option.some v => dictSet params "class" v
    | Option.none => params
  let params :=
    match lookupKey kwargs "geo" with
    | Option.some v => dictSet params "geo" v
    | Option.none => params
  let req := driverRequest d API_ACTION params
  let response := net req
  ([req],
    match loads response.body with
    | Option.none => Except.error PyError.jsonDecodeError
    | Option.some body =>
      match getItem body "response" with
      | Except.error e => Except.error e
      | Except.ok resp => getItem resp "ips")

/-- A call `driver.zone_ips(zone_id, **kw)` under Python's argument
binding: a keyword named `hours` binds to the named parameter `hours`
(defaulting to 24) and is removed from what reaches `**kwargs`; every other
keyword lands in `kwargs`. -/
def zone_ips_call (d : Driver) (net : OutgoingRequest → HttpResponse)
    (loads : String → Option PyVal) (zone_id : PyVal)
    (kw : List (String × PyVal)) :
    List OutgoingRequest × Except PyError PyVal :=
  let hours := (lookupKey kw "hours").getD (PyVal.int 24)
  let kwargs := kw.filter (fun p => p.1 != "hours")
  zone_ips_body d net loads zone_id hours kwargs

/-! ### Fixtures and helper lemmas -/

/-- A `json.loads` that parses every body to the fixed value `v`. -/
def constLoads (v : PyVal) : String → Option PyVal := fun _ => Option.some v

/-- A `json.loads` that fails on every body (non-JSON text). -/
def noLoads : String → Option PyVal := fun _ => Option.none

/-- A provider that answers every request with the fixed response `r`. -/
def constNet (r : HttpResponse) : OutgoingRequest → HttpResponse := fun _ => r

/-- Fixture driver instance for concrete evaluations. -/
def dEx : Driver := { user_id := "acct", key := "tok" }

theorem beq_str_iff (v : PyVal) (s : String) :
    (v == PyVal.str s) = true ↔ v = PyVal.str s := by
  cases v <;> simp [BEq.beq, PyVal.beq]

theorem lookupKey_dictSet_self (d : List (String × PyVal)) (k : String) (v : PyVal) :
    lookupKey (dictSet d k v) k = Option.some v := by
  induction d with
  | nil => simp [dictSet, lookupKey]
  | cons p rest ih =>
    obtain ⟨k0, v0⟩ := p
    by_cases h : k0 = k
    · subst h
      simp [dictSet, lookupKey]
    · simp [dictSet, lookupKey, h, ih]

theorem lookupKey_dictSet_other (d : List (String × PyVal)) (k k2 : String)
    (v : PyVal) (h : k ≠ k2) :
    lookupKey (dictSet d k2 v) k = lookupKey d k := by
  have h2 : ¬ k2 = k := fun e => h e.symm
  induction d with
  | nil => simp [dictSet, lookupKey, h2]
  | cons p rest ih =>
    obtain ⟨k0, v0⟩ := p
    by_cases h0 : k0 = k2
    · subst h0
      simp [dictSet, lookupKey, h2]
    · simp [dictSet, lookupKey, h0, ih]

theorem lookupKey_filter (kw : List (String × PyVal)) (bad k : String) :
    lookupKey (kw.filter (fun p => p.1 != bad)) k
      = if k = bad then Option.none else lookupKey kw k := by
  induction kw with
  | nil => simp [lookupKey]
  | cons p rest ih =>
    obtain ⟨k0, v0⟩ := p
    by_cases hb : k0 = bad
    · subst hb
      have hcond : ((k0 : String) != k0) = false := by simp
      by_cases hk : k = k0
      · subst hk
        simp [List.filter_cons, hcond, ih, lookupKey]
      · have hk2 : ¬ k0 = k := fun e => hk e.symm
        simp [List.filter_cons, hcond, ih, lookupKey, hk, hk2]
    · have hcond : ((k0 : String) != bad) = true := bne_iff_ne.mpr hb
      by_cases hk : k0 = k
      · subst hk
        have hkb : ¬ k0 = bad := hb
        simp [List.filter_cons, hcond, lookupKey, hkb]
      · simp [List.filter_cons, hcond, lookupKey, hk, ih]

/-! ### Claims -/

/-- C1 (amended): for a response whose body parses to a JSON object carrying
a `result` field, `success` returns `True` exactly when the field equals
`"success"` and the HTTP status is 200; when the field equals `"success"`
but the status differs from 200 it returns `False`; for any other value of
the field it falls off the end of the Python function and returns `None`
(a falsy value, but not `False`). -/
theorem success_truthiness (loads : String → Option PyVal) (r : HttpResponse)
    (body v : PyVal) (hb : loads r.body = Option.some body)
    (hv : getItem body "result" = Except.ok v) :
    (v = PyVal.str "success" ∧ r.status = 200 →
       success loads r = Except.ok (PyVal.bool true)) ∧
    (v = PyVal.str "success" ∧ r.status ≠ 200 →
       success loads r = Except.ok (PyVal.bool false)) ∧
    (v ≠ PyVal.str "success" → success loads r = Except.ok PyVal.none) := by
  have htrue : (PyVal.str "success" == PyVal.str "success") = true :=
    (beq_str_iff (PyVal.str "success") "success").mpr rfl
  refine ⟨?_, ?_, ?_⟩
  · rintro ⟨hv2, hs⟩
    subst hv2
    simp [success, hb, hv, htrue, hs]
  · rintro ⟨hv2, hs⟩
    subst hv2
    have hfalse : (r.status == 200) = false := beq_eq_false_iff_ne.mpr hs
    simp [success, hb, hv, htrue, hfalse]
  · intro hv2
    have hfalse : (v == PyVal.str "success") = false := by
      rcases h : v == PyVal.str "success" with _ | _
      · rfl
      · exact absurd ((beq_str_iff v "success").mp h) hv2
    simp [success, hb, hv, hfalse]

/-- C1 witness: a 200 response whose body parses to
`{"result": "success"}` is classified as `True`. -/
theorem success_truthiness_witness :
    success (constLoads (PyVal.dict [("result", PyVal.str "success")]))
        { status := 200, body := "BODY", error := "" }
      = Except.ok (PyVal.bool true) :=
  (success_truthiness (constLoads (PyVal.dict [("result", PyVal.str "success")]))
      { status := 200, body := "BODY", error := "" }
      (PyVal.dict [("result", PyVal.str "success")]) (PyVal.str "success")
      rfl rfl).1 ⟨rfl, rfl⟩

/-- C1 counterexample: on a 200 response whose body parses to
`{"result": "error"}` the source returns `None`, not `False`, so "for every
other combination of status and result it returns false" fails as stated. -/
theorem success_none_on_error_result :
    success (constLoads (PyVal.dict [("result", PyVal.str "error")]))
        { status := 200, body := "BODY", error := "" }
      = Except.ok PyVal.none ∧
    success (constLoads (PyVal.dict [("result", PyVal.str "error")]))
        { status := 200, body := "BODY", error := "" }
      ≠ Except.ok (PyVal.bool false) := by
  constructor
  · rfl
  · intro h
    have h2 : (Except.ok PyVal.none : Except PyError PyVal)
        = Except.ok (PyVal.bool false) := h
    injection h2 with h3
    injection h3

/-- C3: every response with HTTP status 503 passes through `parse_error`
without an exception: the raw body is returned unchanged. -/
theorem parse_error_503_passthrough (loads : String → Option PyVal)
    (r : HttpResponse) (h : r.status = 503) :
    parse_error loads r = Except.ok r.body := by
  have h1 : ((503 : Int) == 401) = false := rfl
  have h2 : ((503 : Int) != 503) = false := rfl
  simp [parse_error, h, h1, h2]

/-- C3 witness: body `"OK"` with status 503 yields `"OK"`. -/
theorem parse_error_503_passthrough_witness :
    parse_error noLoads { status := 503, body := "OK", error := "" }
      = Except.ok "OK" :=
  parse_error_503_passthrough noLoads
    { status := 503, body := "OK", error := "" } rfl

/-- C4: every response with HTTP status 401 makes `parse_error` raise
`InvalidCredsError`; with an empty body the message is the status text
(`str(status) + ': ' + self.error`), otherwise it is the raw body. -/
theorem parse_error_401_invalid_creds (loads : String → Option PyVal)
    (r : HttpResponse) (h : r.status = 401) :
    (r.body = "" →
       parse_error loads r
         = Except.error (PyError.invalidCreds (toString r.status ++ ": " ++ r.error))) ∧
    (r.body ≠ "" →
       parse_error loads r = Except.error (PyError.invalidCreds r.body)) := by
  constructor
  · intro hb
    simp [parse_error, h, hb]
  · intro hb
    simp [parse_error, h, hb]

/-- C4 witness: status 401 with empty body gives the status-derived message
`"401: Unauthorized"`; status 401 with body `"DENIED"` carries the body. -/
theorem parse_error_401_invalid_creds_witness :
    parse_error noLoads { status := 401, body := "", error := "Unauthorized" }
      = Except.error (PyError.invalidCreds "401: Unauthorized") ∧
    parse_error noLoads { status := 401, body := "DENIED", error := "Unauthorized" }
      = Except.error (PyError.invalidCreds "DENIED") := by
  constructor
  · exact (parse_error_401_invalid_creds noLoads
      { status := 401, body := "", error := "Unauthorized" } rfl).1 rfl
  · exact (parse_error_401_invalid_creds noLoads
      { status := 401, body := "DENIED", error := "Unauthorized" } rfl).2
      (by intro h; exact absurd h (by decide))

/-- C2: for a non-success response whose status is neither 401 nor 503,
`parse_error` attempts to parse the body as JSON; a parse failure raises
`MalformedResponseError` carrying the unparsed body, and a successful parse
raises `CloudFlareDNSError` populated with the HTTP status and the body's
`err_code` and `msg` fields. -/
theorem parse_error_other_status (loads : String → Option PyVal)
    (r : HttpResponse) (h401 : r.status ≠ 401) (h503 : r.status ≠ 503) :
    (loads r.body = Option.none →
       parse_error loads r
         = Except.error (PyError.malformedResponse "Failed to parse Json" r.body)) ∧
    (∀ body ec em, loads r.body = Option.some body →
       getItem body "err_code" = Except.ok ec →
       getItem body "msg" = Except.ok em →
       parse_error loads r
         = Except.error (PyError.cloudFlareDNSError r.status ec em)) := by
  have hb401 : (r.status == 401) = false := beq_eq_false_iff_ne.mpr h401
  have hb503 : (r.status != 503) = true := bne_iff_ne.mpr h503
  constructor
  · intro hp
    simp [parse_error, hb401, hb503, hp]
  · intro body ec em hp hec hem
    simp [parse_error, hb401, hb503, hp, hec, hem]

/-- C2 witness: a 500 response with a non-JSON body yields
`MalformedResponseError` carrying that body, and a 500 response whose body
parses to `{"err_code": "E_FOO", "msg": "bad thing"}` yields
`CloudFlareDNSError(500, 'E_FOO', 'bad thing')`. -/
theorem parse_error_other_status_witness :
    parse_error noLoads { status := 500, body := "NOT-JSON", error := "" }
      = Except.error (PyError.malformedResponse "Failed to parse Json" "NOT-JSON") ∧
    parse_error
        (constLoads (PyVal.dict
          [("err_code", PyVal.str "E_FOO"), ("msg", PyVal.str "bad thing")]))
        { status := 500, body := "BODY", error := "" }
      = Except.error (PyError.cloudFlareDNSError 500
          (PyVal.str "E_FOO") (PyVal.str "bad thing")) := by
  constructor
  · exact (parse_error_other_status noLoads
      { status := 500, body := "NOT-JSON", error := "" }
      (by decide) (by decide)).1 rfl
  · exact (parse_error_other_status
      (constLoads (PyVal.dict
        [("err_code", PyVal.str "E_FOO"), ("msg", PyVal.str "bad thing")]))
      { status := 500, body := "BODY", error := "" }
      (by decide) (by decide)).2 _ _ _ rfl rfl rfl

/-- C5 (evaluating the code at the failing inputs): on an invalid level,
`set_security_level` and `set_cache_level` never produce the structured
`E_INVLDINPUT` error — evaluating `'Level must be in ' + <list>` while
building it raises `TypeError` (still before any request is issued, so the
request trace is empty); `set_development_mode` and `toggle_ipv6` on a
non-boolean mode do raise
`CloudFlareDNSError(400, 'E_INVLDINPUT', 'Mode must be boolean')` before
any request. -/
theorem invalid_input_validation (d : Driver) (net : OutgoingRequest → HttpResponse)
    (loads : String → Option PyVal) (ctime : PyVal → Except PyError String)
    (zone_id : PyVal) :
    set_security_level d net zone_id (PyVal.str "ultra")
      = ([], Except.error (PyError.typeError
          "can only concatenate str (not other types) to str")) ∧
    set_cache_level d net zone_id (PyVal.str "ultra")
      = ([], Except.error (PyError.typeError
          "can only concatenate str (not other types) to str")) ∧
    set_development_mode d net loads ctime zone_id (PyVal.int 1)
      = ([], Except.error (PyError.cloudFlareDNSError 400
          (PyVal.str "E_INVLDINPUT") (PyVal.str "Mode must be boolean"))) ∧
    toggle_ipv6 d net zone_id (PyVal.str "on")
      = ([], Except.error (PyError.cloudFlareDNSError 400
          (PyVal.str "E_INVLDINPUT") (PyVal.str "Mode must be boolean"))) :=
  ⟨rfl, rfl, rfl, rfl⟩

/-- C9: every request built by `CloudFlareDNSConnection.request` carries the
account identifier under `u` and the API token under `tkn`, whatever
parameters the caller supplied; when the caller supplies no headers the
Content-Type header defaults to `application/json; charset=UTF-8`; and the
call form with every optional argument at its default (the one all driver
methods use) has method POST. -/
theorem connRequest_auth (user_id key action : String)
    (params : Option (List (String × PyVal))) (data : String)
    (headers : Option (List (String × String))) (method : String)
    (ps : List (String × PyVal)) :
    lookupKey (connRequest user_id key action params data headers method).params "u"
      = Option.some (PyVal.str user_id) ∧
    lookupKey (connRequest user_id key action params data headers method).params "tkn"
      = Option.some (PyVal.str key) ∧
    (headers = Option.none →
      (connRequest user_id key action params data headers method).headers
        = [("Content-Type", "application/json; charset=UTF-8")]) ∧
    (connRequestDefaults user_id key action ps).method = "POST" := by
  refine ⟨?_, ?_, ?_, rfl⟩
  · simp only [connRequest]
    rw [lookupKey_dictSet_other _ _ _ _ (by decide)]
    exact lookupKey_dictSet_self _ _ _
  · simp only [connRequest]
    exact lookupKey_dictSet_self _ _ _
  · intro h
    subst h
    rfl

/-- C9 witness: with no caller-supplied params or headers, the outgoing
request carries `u`/`tkn`, the default Content-Type, and method POST. -/
theorem connRequest_auth_witness :
    lookupKey (connRequest "acct" "tok" "/api_json.html"
        Option.none "" Option.none "POST").params "u"
      = Option.some (PyVal.str "acct") ∧
    lookupKey (connRequest "acct" "tok" "/api_json.html"
        Option.none "" Option.none "POST").params "tkn"
      = Option.some (PyVal.str "tok") ∧
    (connRequest "acct" "tok" "/api_json.html"
        Option.none "" Option.none "POST").headers
      = [("Content-Type", "application/json; charset=UTF-8")] ∧
    (connRequestDefaults "acct" "tok" "/api_json.html" []).method = "POST" := by
  have h := connRequest_auth "acct" "tok" "/api_json.html"
    Option.none "" Option.none "POST" []
  exact ⟨h.1, h.2.1, h.2.2.1 rfl, h.2.2.2⟩

/-- C6: when `int(extra)` succeeds, `create_record` issues exactly one
request whose parameters include `a=rec_set`, the `name`, `zone` and
`type` arguments, `content=data` and `service_mode=int(extra)`; and
whenever the provider answers with status 200 the returned `Record`
carries the same name, type, data and zone that were sent plus the
back-reference to the driver instance. -/
theorem create_record_spec (d : Driver) (net : OutgoingRequest → HttpResponse)
    (name zone type data extra : PyVal) (sm : Int)
    (hext : pyInt extra = Except.ok sm) :
    ∃ req, (create_record d net name zone type data extra).1 = [req] ∧
      lookupKey req.params "a" = Option.some (PyVal.str "rec_set") ∧
      lookupKey req.params "name" = Option.some name ∧
      lookupKey req.params "zone" = Option.some zone ∧
      lookupKey req.params "type" = Option.some type ∧
      lookupKey req.params "content" = Option.some data ∧
      lookupKey req.params "service_mode" = Option.some (PyVal.int sm) ∧
      ((net req).status = 200 →
        (create_record d net name zone type data extra).2
          = Except.ok { id := PyVal.builtin "id", name := name, type := type,
                        data := data, extra := extra, zone := zone, driver := d }) := by
  unfold create_record
  rw [hext]
  refine ⟨_, rfl, rfl, rfl, rfl, rfl, rfl, rfl, ?_⟩
  intro h200
  simp [h200]

/-- C6 witness: `create_record("www", "zone1", "A", "1.2.3.4", extra=1)`
against a provider answering 200. -/
theorem create_record_spec_witness :
    ∃ req, (create_record dEx (constNet { status := 200, body := "B", error := "" })
        (PyVal.str "www") (PyVal.str "zone1") (PyVal.str "A")
        (PyVal.str "1.2.3.4") (PyVal.int 1)).1 = [req] ∧
      lookupKey req.params "a" = Option.some (PyVal.str "rec_set") ∧
      lookupKey req.params "name" = Option.some (PyVal.str "www") ∧
      lookupKey req.params "zone" = Option.some (PyVal.str "zone1") ∧
      lookupKey req.params "type" = Option.some (PyVal.str "A") ∧
      lookupKey req.params "content" = Option.some (PyVal.str "1.2.3.4") ∧
      lookupKey req.params "service_mode" = Option.some (PyVal.int 1) ∧
      ((constNet { status := 200, body := "B", error := "" } req).status = 200 →
        (create_record dEx (constNet { status := 200, body := "B", error := "" })
            (PyVal.str "www") (PyVal.str "zone1") (PyVal.str "A")
            (PyVal.str "1.2.3.4") (PyVal.int 1)).2
          = Except.ok { id := PyVal.builtin "id", name := PyVal.str "www",
                        type := PyVal.str "A", data := PyVal.str "1.2.3.4",
                        extra := PyVal.int 1, zone := PyVal.str "zone1",
                        driver := dEx }) :=
  create_record_spec dEx (constNet { status := 200, body := "B", error := "" })
    (PyVal.str "www") (PyVal.str "zone1") (PyVal.str "A")
    (PyVal.str "1.2.3.4") (PyVal.int 1) 1 rfl

/-- C7 (evaluating the body the source writes; the enclosing Python `def`
is itself a `SyntaxError`, see `update_record_body`): the body transmits
exactly `a=DIUP`, `hosts` (the record) and `ip` (the data) plus the
injected credentials — `name`, `type` and `extra` appear nowhere in the
request — and the operation evaluates to the boolean
`response.status == httplib.OK`. -/
theorem update_record_body_spec (d : Driver) (net : OutgoingRequest → HttpResponse)
    (record name type data extra : PyVal) :
    ∃ req, (update_record_body d net record name type data extra).1 = [req] ∧
      req.params.map Prod.fst = ["a", "hosts", "ip", "u", "tkn"] ∧
      lookupKey req.params "a" = Option.some (PyVal.str "DIUP") ∧
      lookupKey req.params "hosts" = Option.some record ∧
      lookupKey req.params "ip" = Option.some data ∧
      (update_record_body d net record name type data extra).2
        = Except.ok ((net req).status == 200) :=
  ⟨_, rfl, rfl, rfl, rfl, rfl, rfl⟩

/-- C8 (amended): `zone_ips(zone_id, **kw)` issues exactly one request that
always includes `a=zone_ips` and `zid`; `class` and `geo` are forwarded
exactly when supplied as keyword arguments; `hours` is never forwarded —
an explicit `hours=` keyword binds to the named parameter `hours`, and the
body only consults `**kwargs` — and with no keyword arguments the request
consists of exactly `a`, `zid`, `u`, `tkn`. -/
theorem zone_ips_forwarding (d : Driver) (net : OutgoingRequest → HttpResponse)
    (loads : String → Option PyVal) (zone_id : PyVal)
    (kw : List (String × PyVal)) :
    ∃ req, (zone_ips_call d net loads zone_id kw).1 = [req] ∧
      lookupKey req.params "a" = Option.some (PyVal.str "zone_ips") ∧
      lookupKey req.params "zid" = Option.some zone_id ∧
      lookupKey req.params "hours" = Option.none ∧
      lookupKey req.params "class" = lookupKey kw "class" ∧
      lookupKey req.params "geo" = lookupKey kw "geo" ∧
      (kw = [] → req.params.map Prod.fst = ["a", "zid", "u", "tkn"]) := by
  have hh : lookupKey (kw.filter (fun p => p.1 != "hours")) "hours"
      = Option.none := by
    rw [lookupKey_filter, if_pos rfl]
  have hc : lookupKey (kw.filter (fun p => p.1 != "hours")) "class"
      = lookupKey kw "class" := by
    rw [lookupKey_filter, if_neg (by decide)]
  have hg : lookupKey (kw.filter (fun p => p.1 != "hours")) "geo"
      = lookupKey kw "geo" := by
    rw [lookupKey_filter, if_neg (by decide)]
  rcases hcv : lookupKey kw "class" with _ | v
  · rcases hgv : lookupKey kw "geo" with _ | w
    · simp only [zone_ips_call, zone_ips_body, hh, hc, hg, hcv, hgv]
      exact ⟨_, rfl, rfl, rfl, rfl, rfl, rfl, fun _ => rfl⟩
    · simp only [zone_ips_call, zone_ips_body, hh, hc, hg, hcv, hgv]
      refine ⟨_, rfl, rfl, rfl, rfl, rfl, rfl, ?_⟩
      intro hkw
      rw [hkw] at hgv
      simp [lookupKey] at hgv
  · rcases hgv : lookupKey kw "geo" with _ | w
    · simp only [zone_ips_call, zone_ips_body, hh, hc, hg, hcv, hgv]
      refine ⟨_, rfl, rfl, rfl, rfl, rfl, rfl, ?_⟩
      intro hkw
      rw [hkw] at hcv
      simp [lookupKey] at hcv
    · simp only [zone_ips_call, zone_ips_body, hh, hc, hg, hcv, hgv]
      refine ⟨_, rfl, rfl, rfl, rfl, rfl, rfl, ?_⟩
      intro hkw
      rw [hkw] at hcv
      simp [lookupKey] at hcv

/-- C8 witness: `zone_ips("zone1")` with no keyword arguments sends exactly
`a`, `zid`, `u`, `tkn`. -/
theorem zone_ips_forwarding_witness :
    ∃ req, (zone_ips_call dEx (constNet { status := 200, body := "B", error := "" })
        noLoads (PyVal.str "zone1") []).1 = [req] ∧
      lookupKey req.params "a" = Option.some (PyVal.str "zone_ips") ∧
      lookupKey req.params "zid" = Option.some (PyVal.str "zone1") ∧
      lookupKey req.params "hours" = Option.none ∧
      lookupKey req.params "class" = lookupKey ([] : List (String × PyVal)) "class" ∧
      lookupKey req.params "geo" = lookupKey ([] : List (String × PyVal)) "geo" ∧
      (([] : List (String × PyVal)) = [] →
        req.params.map Prod.fst = ["a", "zid", "u", "tkn"]) :=
  zone_ips_forwarding dEx (constNet { status := 200, body := "B", error := "" })
    noLoads (PyVal.str "zone1") []

/-- C8 counterexample: in `zone_ips("zone1", hours=48)` the explicit
`hours` keyword binds to the named parameter, never reaches `**kwargs`,
and the single request sent still carries only `a`, `zid`, `u`, `tkn` —
refuting "hours ... is forwarded exactly when explicitly supplied as a
keyword argument". -/
theorem zone_ips_hours_keyword_dropped :
    ((zone_ips_call dEx (constNet { status := 200, body := "B", error := "" })
        noLoads (PyVal.str "zone1") [("hours", PyVal.int 48)]).1.map
      (fun req => req.params.map Prod.fst)) = [["a", "zid", "u", "tkn"]] := rfl

/-- C10: calling `create_record` with the signature's default `extra=None`
fails in the `int(extra)` coercion with a `TypeError` before any request is
issued (the request trace is empty); and `create_record` can only return a
`Record` when `int(extra)` succeeds, which requires a non-`None`
int-coercible `extra`. -/
theorem create_record_extra_none (d : Driver) (net : OutgoingRequest → HttpResponse)
    (name zone type data : PyVal) :
    create_record d net name zone type data PyVal.none
      = ([], Except.error (PyError.typeError
          "int() argument must be a string or a number, not NoneType")) ∧
    (∀ extra rec, (create_record d net name zone type data extra).2 = Except.ok rec →
       extra ≠ PyVal.none ∧ ∃ n, pyInt extra = Except.ok n) := by
  constructor
  · rfl
  · intro extra rec h
    rcases hp : pyInt extra with e | n
    · exfalso
      unfold create_record at h
      rw [hp] at h
      simp at h
    · refine ⟨?_, ⟨n, rfl⟩⟩
      intro he
      rw [he] at hp
      simp [pyInt] at hp

/-- C10 witness: the fixture call with `extra` left at `None` issues no
request and raises `TypeError`; the same call with `extra=1` succeeds. -/
theorem create_record_extra_none_witness :
    create_record dEx (constNet { status := 200, body := "B", error := "" })
        (PyVal.str "www") (PyVal.str "zone1") (PyVal.str "A")
        (PyVal.str "1.2.3.4") PyVal.none
      = ([], Except.error (PyError.typeError
          "int() argument must be a string or a number, not NoneType")) ∧
    (PyVal.int 1 ≠ PyVal.none ∧ ∃ n, pyInt (PyVal.int 1) = Except.ok n) := by
  have h := create_record_extra_none dEx
    (constNet { status := 200, body := "B", error := "" })
    (PyVal.str "www") (PyVal.str "zone1") (PyVal.str "A") (PyVal.str "1.2.3.4")
  exact ⟨h.1, h.2 (PyVal.int 1)
    { id := PyVal.builtin "id", name := PyVal.str "www", type := PyVal.str "A",
      data := PyVal.str "1.2.3.4", extra := PyVal.int 1,
      zone := PyVal.str "zone1", driver := dEx } rfl⟩

end CloudFlare
